import Mathlib

/-!
Shallow embedding of the audio transcoding and caching pipeline of
simple-nus3audio-gui (src/list.rs, src/codec.rs), together with proofs
settling the frozen claims about it.

External library calls (rodio decoding, fon resampling, wav read/write,
json parsing, process spawning, filesystem I/O) are modelled as explicit
oracle parameters: each embedded function takes the outcomes of its
external calls as inputs and reproduces the source's control flow over
them.  Bytes are modelled as `List Nat`, PCM samples as `List Int`.
-/

/-- Possible (valid) formats for audio in a nus3audio file
(src/list.rs, `enum AudioExtension`). -/
inductive AudioExtension where
  | Idsp
  | Lopus
  | Bin
deriving DecidableEq

/-- The four magic bytes "IDSP" checked by `extension_of_encoded`. -/
def idspMagic : List Nat := [73, 68, 83, 80]

/-- Embedding of `extension_of_encoded` (src/list.rs:28-38): fewer than 4
bytes is an error, an "IDSP" prefix gives Idsp, anything else Lopus. -/
def extension_of_encoded (encoded : List Nat) : Except String AudioExtension :=
  if encoded.length < 4 then
    .error "Not a valid file"
  else if encoded.take 4 = idspMagic then
    .ok .Idsp
  else
    .ok .Lopus

/-- Embedding of the sample-rate selection chain that appears verbatim in
`ListItem::set_audio_raw` (src/list.rs:329-333) and in
`EncodedFile::rodio_decode_resample` (src/codec.rs:119-123). -/
def target_rate_for (r : Nat) : Nat :=
  if r ≤ 8000 then 8000
  else if r ≤ 12000 then 12000
  else if r ≤ 16000 then 16000
  else if r ≤ 24000 then 24000
  else 48000

/-- The sample rates supported by the lopus format, as listed in the spec. -/
def lopusRates : List Nat := [8000, 12000, 16000, 24000, 48000]

/-- Spec-side characterization (from the spec's words, for the refinement
claim about rate selection): `t` is the smallest allowed rate ≥ `r`. -/
def isSmallestAllowedRateGE (r t : Nat) : Prop :=
  t ∈ lopusRates ∧ r ≤ t ∧ ∀ s ∈ lopusRates, r ≤ s → t ≤ s

instance (r t : Nat) : Decidable (isSmallestAllowedRateGE r t) := by
  unfold isSmallestAllowedRateGE
  infer_instance

/-- Embedding of `struct ListItem` (src/list.rs:241-259). -/
structure ListItem where
  name : String
  extension : AudioExtension
  audio_raw : Option (List Int)
  bytes_raw : Option (List Nat)
  loop_points_samples : Option (Nat × Nat)
  length_in_samples : Nat
  sample_rate : Nat
  channels : Nat
deriving DecidableEq

/-- Embedding of `ListItem::new` (src/list.rs:263-274). -/
def ListItem.new (name : String) : ListItem :=
  { name := name
    extension := .Idsp
    audio_raw := none
    bytes_raw := none
    loop_points_samples := none
    length_in_samples := 0
    sample_rate := 12000
    channels := 1 }

/-- Embedding of `ListItem::loop_end` (src/list.rs:282-284). -/
def ListItem.loop_end (item : ListItem) : Option Nat :=
  item.loop_points_samples.map (fun p => p.2)

/-- Outcome of a successful `rodio::Decoder` construction: the decoder's
reported sample rate and channel count, and the collected samples. -/
structure DecodedAudio where
  sampleRate : Nat
  channels : Nat
  samples : List Int

/-- Embedding of `ListItem::set_audio_raw` (src/list.rs:299-369).

`decodeResult` is the outcome of `rodio::Decoder::new` plus `collect`
(`none` models a decoder error); `resample` is the fon resampling library
(arguments: channel count, source rate, target rate, samples). -/
def set_audio_raw (resample : Nat → Nat → Nat → List Int → List Int)
    (decodeResult : Option DecodedAudio) (item : ListItem) (raw : List Nat) :
    ListItem × Except String Unit :=
  match decodeResult with
  | none =>
    -- src/list.rs:314-324: the bytes cannot be decoded; not fatal
    ({ item with
        loop_points_samples := none
        extension := .Bin
        audio_raw := none
        bytes_raw := some raw }, .ok ())
  | some d =>
    let sample_rate := target_rate_for d.sampleRate
    let channel_count := if d.channels = 1 then 1 else 2
    let decoded :=
      if d.sampleRate ≠ sample_rate then
        resample channel_count d.sampleRate sample_rate d.samples
      else d.samples
    ({ item with
        length_in_samples := decoded.length / channel_count
        sample_rate := sample_rate
        channels := channel_count
        audio_raw := some decoded
        loop_points_samples := none
        bytes_raw := none }, .ok ())

/-- Captured output of a finished subprocess: the exit code (`none` when the
process was killed without one), the raw stdout bytes, and the outcomes of
`String::from_utf8` on the two captured streams. -/
structure ProcessOutput where
  exitCode : Option Int
  stdoutBytes : List Nat
  stdoutUtf8 : Except String String
  stderrUtf8 : Except String String

/-- The stdout part of the error message built on a non-zero exit code
(src/list.rs:604-612, duplicated at 690-698 and 749-757). -/
def stdoutReport (stdout : Except String String) : String :=
  match stdout with
  | .ok out =>
    if out = "" then "stdout is empty\n" else "stdout is:\n" ++ out ++ "\n"
  | .error _ => "stdout couldn't be read\n"

/-- The stderr part of the error message built on a non-zero exit code
(src/list.rs:613-621, duplicated at 699-707 and 758-766). -/
def stderrReport (stderr : Except String String) : String :=
  match stderr with
  | .ok err =>
    if err = "" then "stderr is empty" else "stderr is:\n" ++ err
  | .error _ => "stderr couldn't be read"

/-- The full error message built on a non-zero exit code; the block is
duplicated verbatim in the source for the two tools, differing only in the
tool name (src/list.rs:599-621 for VGAudioCli, 685-707 and 744-766 for
vgmstream). -/
def toolErrorMessage (tool : String) (code : Int)
    (stdout stderr : Except String String) : String :=
  "Attempted running " ++ tool ++ ", found exit code " ++ toString code ++ "\n"
    ++ stdoutReport stdout ++ stderrReport stderr

/-- Oracle inputs of `ListItem::vgaudio_cli_decode`: the configured tool
path, the result of `Command::output()`, and the result of reading the
destination file back (src/list.rs:560-655). The command-line argument
construction (prepath, loop-point flags) does not affect the embedded
result and is not modelled. -/
structure VgaudioEnv where
  vgaudio_cli_path : String
  spawn : Except String ProcessOutput
  readDest : Except String (List Nat)

/-- Embedding of `ListItem::vgaudio_cli_decode` (src/list.rs:560-655). -/
def vgaudio_cli_decode (env : VgaudioEnv) : Except String (List Nat) :=
  if env.vgaudio_cli_path = "" then
    .error "VGAudiCli path is empty"
  else
    match env.spawn with
    | .error e => .error ("Error running VGAudioCli\n" ++ e)
    | .ok output =>
      match output.exitCode with
      | some code =>
        if code ≠ 0 then
          .error (toolErrorMessage "VGAudioCli" code output.stdoutUtf8 output.stderrUtf8)
        else
          match env.readDest with
          | .ok bytes => .ok bytes
          | .error e => .error ("Error reading destination file\n" ++ e)
      | none => .error "Attempted running VGAudioCli, didn't get any exit code"

/-- Oracle inputs of `ListItem::vgmstream_decode` (src/list.rs:657-714). -/
structure VgmstreamEnv where
  vgmstream_path : String
  spawn : Except String ProcessOutput

/-- Embedding of `ListItem::vgmstream_decode` (src/list.rs:657-714).  Note
that the source checks the exit code only inside `if let Some(code)`: when
the process returned no exit code at all, control falls through to
`Ok(output.stdout)`. -/
def vgmstream_decode (env : VgmstreamEnv) : Except String (List Nat) :=
  if env.vgmstream_path = "" then
    .error "vgmstream path is empty"
  else
    match env.spawn with
    | .error e => .error ("Error running vgmstream\n" ++ e)
    | .ok output =>
      match output.exitCode with
      | some code =>
        if code ≠ 0 then
          .error (toolErrorMessage "vgmstream" code output.stdoutUtf8 output.stderrUtf8)
        else .ok output.stdoutBytes
      | none => .ok output.stdoutBytes

/-- Minimal model of `json::JsonValue`; numbers are modelled as integers
(`as_usize` succeeds exactly on the non-negative ones). -/
inductive Json where
  | null
  | bool (b : Bool)
  | str (s : String)
  | num (n : Int)
  | obj (fields : List (String × Json))
  | arr (elems : List Json)

/-- Member access `value[key]` of the json crate: a member of an object,
`Null` for a missing key or a non-object. -/
def jsonMember (j : Json) (key : String) : Json :=
  match j with
  | .obj fields =>
    match fields.find? (fun f => f.1 == key) with
    | some f => f.2
    | none => .null
  | _ => .null

/-- Model of `JsonValue::as_usize`. -/
def as_usize (j : Json) : Option Nat :=
  match j with
  | .num n => if n < 0 then none else some n.toNat
  | _ => none

/-- Oracle inputs of `ListItem::vgmstream_metadata` (src/list.rs:717-782):
the configured tool path, the result of `Command::output()`, and the
outcome of `json::parse` on the tool's stdout text. -/
structure VgmstreamMetaEnv where
  vgmstream_path : String
  spawn : Except String ProcessOutput
  parseJson : String → Except String Json

/-- Embedding of `ListItem::vgmstream_metadata` (src/list.rs:717-782).
As in `vgmstream_decode`, a missing exit code falls through to the
stdout-parsing steps. -/
def vgmstream_metadata (env : VgmstreamMetaEnv) : Except String Json :=
  if env.vgmstream_path = "" then
    .error "vgmstream path is empty"
  else
    match env.spawn with
    | .error e => .error ("Error running vgmstream\n" ++ e)
    | .ok output =>
      match output.exitCode with
      | some code =>
        if code ≠ 0 then
          .error (toolErrorMessage "vgmstream" code output.stdoutUtf8 output.stderrUtf8)
        else
          match output.stdoutUtf8 with
          | .ok text =>
            (match env.parseJson text with
             | .ok j => .ok j
             | .error e => .error ("Error parsing vgmstream output\n" ++ e))
          | .error e => .error ("Error reading vgmstream output\n" ++ e)
      | none =>
        match output.stdoutUtf8 with
        | .ok text =>
          (match env.parseJson text with
           | .ok j => .ok j
           | .error e => .error ("Error parsing vgmstream output\n" ++ e))
        | .error e => .error ("Error reading vgmstream output\n" ++ e)

/-- Embedding of `ListItem::loop_points_of` (src/list.rs:541-557). -/
def loop_points_of (env : VgmstreamMetaEnv) : Option (Nat × Nat) :=
  match vgmstream_metadata env with
  | .ok metadata =>
    match jsonMember metadata "loopingInfo" with
    | .obj loop_info =>
      (match as_usize (jsonMember (.obj loop_info) "start"),
             as_usize (jsonMember (.obj loop_info) "end") with
       | some start, some stop =>
         if stop > start then some (start, stop) else none
       | _, _ => none)
    | _ => none
  | .error _ => none

/-- Outcome of `wav::read` followed by `BitDepth::try_into_sixteen` on the
bytes returned by the external decode step (src/list.rs:392-400). -/
inductive WavParseOutcome where
  | parsed (channel_count : Nat) (sampling_rate : Nat) (samples : List Int)
  | wrongBitDepth (found : String)
  | readFailed (msg : String)

/-- Oracle inputs of `ListItem::from_encoded` (src/list.rs:374-423):
the outcomes of `create_target_dir`, `fs::write`, the external decode step
(`ListItem::decode`, which dispatches between VGAudioCli and vgmstream),
the best-effort `loop_points_of` query, and the wav parse of the decoded
bytes.  Path formatting inside error messages is not modelled. -/
structure ImportEnv where
  createDirResult : Except String Unit
  writeResult : Except String Unit
  decodeResult : Except String (List Nat)
  loopPoints : Option (Nat × Nat)
  wavRead : List Nat → WavParseOutcome

/-- Embedding of `ListItem::from_encoded` (src/list.rs:374-423). -/
def from_encoded (env : ImportEnv) (item : ListItem) (encoded : List Nat) :
    ListItem × Except String Unit :=
  match extension_of_encoded encoded with
  | .error e => (item, .error e)
  | .ok _sniffed =>
    match env.createDirResult with
    | .error e => (item, .error ("Error creating cache subdirectory\n" ++ e))
    | .ok _ =>
      match env.writeResult with
      | .error e => (item, .error ("Error writing source file\n" ++ e))
      | .ok _ =>
        match env.decodeResult with
        | .ok raw =>
          -- src/list.rs:388-410: the decode step returned wav bytes
          (match env.wavRead raw with
           | .parsed channel_count sampling_rate decoded =>
             ({ item with
                 bytes_raw := some raw
                 audio_raw := some decoded
                 channels := channel_count
                 sample_rate := sampling_rate
                 loop_points_samples := env.loopPoints }, .ok ())
           | .wrongBitDepth found =>
             (item, .error ("Error reading returned wav\nWrong bit depth found: " ++ found))
           | .readFailed e =>
             (item, .error ("Error reading returned wav\n" ++ e)))
        | .error _e =>
          -- src/list.rs:412-421: could not be decoded, assume binary data
          ({ item with
              bytes_raw := some encoded
              audio_raw := none
              extension := .Bin
              loop_points_samples := none }, .ok ())

/-- Embedding of `ListItem::get_audio_wav` (src/list.rs:433-460).
`wavWrite` is the outcome of `wav::write` as a function of the header
fields (channels, sample rate) and the sample slice. -/
def get_audio_wav (wavWrite : Nat → Nat → List Int → Except String (List Nat))
    (item : ListItem) (stop : Option Nat) : Except String (List Nat) :=
  match item.audio_raw with
  | some raw =>
    let sliceLen :=
      match stop with
      | some e =>
        let sample_length := e * item.channels
        if raw.length < sample_length then raw.length else sample_length
      | none => raw.length
    wavWrite item.channels item.sample_rate (raw.take sliceLen)
  | none =>
    if item.bytes_raw = none then
      .error "Selected item is empty"
    else
      .error "Selected item could not be decoded"

/-- Oracle inputs of `ListItem::get_nus3_encoded_raw` (src/list.rs:463-493):
the outcomes of `create_target_dir`, `wav::write` inside `get_audio_wav`,
`fs::write` of the wav source file, and the `vgaudio_cli_decode` call
(modelled through its own oracle environment). -/
structure EncodeEnv where
  createDirResult : Except String Unit
  wavWrite : Nat → Nat → List Int → Except String (List Nat)
  writeResult : Except String Unit
  vgaudioEnv : VgaudioEnv

/-- Embedding of `ListItem::get_nus3_encoded_raw` (src/list.rs:463-493).
Returns the updated item (the source mutates `self.bytes_raw`) together
with the result.  The source's very first statement is the
`audio_raw.is_none()` guard; only after it does the cached-bytes check
run. -/
def get_nus3_encoded_raw (env : EncodeEnv) (item : ListItem) :
    ListItem × Except String (List Nat) :=
  if item.audio_raw.isNone then
    (item, .error "Audio of selected item is empty")
  else
    match item.bytes_raw with
    | some bytes => (item, .ok bytes)
    | none =>
      match env.createDirResult with
      | .error e => (item, .error ("Error creating cache subdirectory\n" ++ e))
      | .ok _ =>
        match get_audio_wav env.wavWrite item item.loop_end with
        | .ok _wavBytes =>
          (match env.writeResult with
           | .error e => (item, .error ("Error writing source file\n" ++ e))
           | .ok _ =>
             match vgaudio_cli_decode env.vgaudioEnv with
             | .ok encoded => ({ item with bytes_raw := some encoded }, .ok encoded)
             | .error e => (item, .error e))
        | .error e => (item, .error ("Error decoding audio\n" ++ e))

/-- Record pushed into the nus3audio container for one item
(`nus3audio::AudioFile`, src/list.rs:166-172).  The id is the `enumerate`
index cast `as u32`, hence reduced modulo 2^32. -/
structure AudioFileRec where
  id : Nat
  name : String
  data : List Nat

/-- The per-item body of the save loop in `List::save_nus3audio`
(src/list.rs:164-173): a failed `get_nus3_encoded_raw` is replaced by an
empty payload via `unwrap_or_else`. -/
def saveRecords (envs : Nat → EncodeEnv) : Nat → List ListItem → List AudioFileRec
  | _, [] => []
  | i, item :: rest =>
    { id := i % 2 ^ 32
      name := item.name
      data :=
        match (get_nus3_encoded_raw (envs i) item).2 with
        | .ok bytes => bytes
        | .error _ => [] } :: saveRecords envs (i + 1) rest

/-- Embedding of the container-assembly part of `List::save_nus3audio`
(src/list.rs:159-173): the records pushed into the `Nus3audioFile`, one
per item in list order, starting at index 0. -/
def save_nus3audio_files (envs : Nat → EncodeEnv) (items : List ListItem) :
    List AudioFileRec :=
  saveRecords envs 0 items

/-- Minimal filesystem tree: a node is a file or a directory with a list of
named children. -/
inductive FsNode where
  | file
  | dir (entries : List (String × FsNode))

/-- First entry named `name` among a directory's children. -/
def lookupEntry : List (String × FsNode) → String → Option FsNode
  | [], _ => none
  | e :: rest, name => if e.1 = name then some e.2 else lookupEntry rest name

/-- Replace the first entry named `name` with `node` (models clearing an
existing directory's contents in place). -/
def setEntry : List (String × FsNode) → String → FsNode → List (String × FsNode)
  | [], _, _ => []
  | e :: rest, name, node =>
    if e.1 = name then (name, node) :: rest else e :: setEntry rest name node

/-- Remove every entry named `name` (models `fs::remove_file`). -/
def removeEntry : List (String × FsNode) → String → List (String × FsNode)
  | [], _ => []
  | e :: rest, name =>
    if e.1 = name then removeEntry rest name else e :: removeEntry rest name

/-- Embedding of `ListItem::create_target_dir` (src/list.rs:497-517) on the
filesystem model, acting on the children of the cache root.  The three
branches of the source map to the three cases: an existing directory has
each of its entries deleted (the directory itself is kept); an existing
file is removed and a directory created; an absent path gets a directory
created. -/
def create_target_dir (cacheRoot : List (String × FsNode)) (name : String) :
    List (String × FsNode) :=
  match lookupEntry cacheRoot name with
  | some (.dir _) => setEntry cacheRoot name (.dir [])
  | some .file => removeEntry cacheRoot name ++ [(name, .dir [])]
  | none => cacheRoot ++ [(name, .dir [])]

/-- Claim C6: extension_of_encoded returns an error for buffers of fewer
than 4 bytes, Idsp when the first four bytes are the "IDSP" magic, and
Lopus for every other buffer of length at least 4. -/
theorem C6_extension_of_encoded (b : List Nat) :
    (b.length < 4 → extension_of_encoded b = .error "Not a valid file") ∧
    (4 ≤ b.length → b.take 4 = idspMagic → extension_of_encoded b = .ok .Idsp) ∧
    (4 ≤ b.length → b.take 4 ≠ idspMagic → extension_of_encoded b = .ok .Lopus) := by
  refine ⟨fun h => ?_, fun h4 hm => ?_, fun h4 hm => ?_⟩
  · simp [extension_of_encoded, h]
  · simp [extension_of_encoded, Nat.not_lt.mpr h4, hm]
  · simp [extension_of_encoded, Nat.not_lt.mpr h4, hm]

/-- Claim C4: the rate chosen before resampling is the smallest allowed
lopus rate that is at least the source rate, 48000 is chosen whenever the
source rate exceeds 24000, and the four boundary cases hold. -/
theorem C4_target_rate_selection (r : Nat) :
    (r ≤ 48000 → isSmallestAllowedRateGE r (target_rate_for r)) ∧
    (24000 < r → target_rate_for r = 48000) ∧
    target_rate_for 8000 = 8000 ∧ target_rate_for 8001 = 12000 ∧
    target_rate_for 48000 = 48000 ∧ target_rate_for 96000 = 48000 := by
  refine ⟨fun hr => ?_, fun hr => ?_, rfl, rfl, rfl, rfl⟩
  · unfold isSmallestAllowedRateGE target_rate_for lopusRates
    split_ifs with h1 h2 h3 h4 <;>
      refine ⟨by simp, by omega, fun s hs hrs => ?_⟩ <;>
      (simp at hs; rcases hs with rfl | rfl | rfl | rfl | rfl <;> omega)
  · unfold target_rate_for
    split_ifs <;> omega

/-- Claim C7: after set_audio_raw, the item's loop points are cleared and
the previously cached encoded bytes are invalidated: bytes_raw is either
none (decode succeeded) or the new input bytes (decode failed). -/
theorem C7_set_audio_raw_invalidates
    (resample : Nat → Nat → Nat → List Int → List Int)
    (decodeResult : Option DecodedAudio) (item : ListItem) (raw : List Nat) :
    (set_audio_raw resample decodeResult item raw).1.loop_points_samples = none ∧
    ((set_audio_raw resample decodeResult item raw).1.bytes_raw = none ∨
      (set_audio_raw resample decodeResult item raw).1.bytes_raw = some raw) := by
  cases decodeResult <;> simp [set_audio_raw]

/-- Claim C10: set_audio_raw returns Ok on every input; a decode failure is
absorbed by moving the item to the Bin state with audio_raw cleared and the
input bytes stored. -/
theorem C10_set_audio_raw_total
    (resample : Nat → Nat → Nat → List Int → List Int)
    (decodeResult : Option DecodedAudio) (item : ListItem) (raw : List Nat) :
    (set_audio_raw resample decodeResult item raw).2 = .ok () ∧
    (decodeResult = none →
      (set_audio_raw resample decodeResult item raw).1.audio_raw = none ∧
      (set_audio_raw resample decodeResult item raw).1.bytes_raw = some raw ∧
      (set_audio_raw resample decodeResult item raw).1.extension = .Bin) := by
  cases decodeResult <;> simp [set_audio_raw]

/-- Claim C1 counterexample: a Bin item holding cached bytes but no decoded
audio (exactly the state a failed decode leaves behind) makes
get_nus3_encoded_raw return the empty-audio error instead of the cached
bytes, because the source checks `audio_raw.is_none()` first. -/
theorem C1_counterexample :
    (get_nus3_encoded_raw
      { createDirResult := .ok ()
        wavWrite := fun _ _ _ => .ok []
        writeResult := .ok ()
        vgaudioEnv :=
          { vgaudio_cli_path := "tool", spawn := .error "e", readDest := .error "e" } }
      { ListItem.new "snd" with extension := .Bin, bytes_raw := some [1, 2, 3] }).2
      = .error "Audio of selected item is empty" := rfl

/-- Claim C1 (amended): get_nus3_encoded_raw requires audio_raw to be
present before anything else, returning the empty-audio error even when
bytes_raw is populated or the item is Bin; when audio_raw is present and
bytes_raw is populated, the cached bytes are returned directly, without
error, without changing the item, and independently of the external-tool
oracles (so without invoking the tool). -/
theorem C1_get_nus3_encoded_raw (env envB : EncodeEnv) (item : ListItem) :
    (item.audio_raw = none →
      get_nus3_encoded_raw env item =
        (item, .error "Audio of selected item is empty")) ∧
    (∀ a b, item.audio_raw = some a → item.bytes_raw = some b →
      get_nus3_encoded_raw env item = (item, .ok b) ∧
      get_nus3_encoded_raw env item = get_nus3_encoded_raw envB item) := by
  constructor
  · intro h
    simp [get_nus3_encoded_raw, h]
  · intro a b ha hb
    simp [get_nus3_encoded_raw, ha, hb]

/-- Claim C2 counterexample: when the external decode step succeeds but the
returned wav cannot be parsed, from_encoded returns an error rather than
Ok, so the wav-parse half of the claim fails on the code. -/
theorem C2_counterexample :
    (from_encoded
      { createDirResult := .ok ()
        writeResult := .ok ()
        decodeResult := .ok [0]
        loopPoints := none
        wavRead := fun _ => .readFailed "no RIFF tag found" }
      (ListItem.new "snd") [73, 68, 83, 80, 0, 0]).2
      = .error "Error reading returned wav\nno RIFF tag found" := rfl

/-- Claim C2 (amended): when the external-tool decode step fails,
from_encoded returns Ok with extension Bin, no decoded audio, cleared loop
points and the original input bytes retained verbatim; a wav-parse failure
on the decoded bytes, in contrast, is propagated as an error. -/
theorem C2_from_encoded_fallback (env : ImportEnv) (item : ListItem)
    (encoded : List Nat) (hlen : 4 ≤ encoded.length)
    (hdir : env.createDirResult = .ok ())
    (hwrite : env.writeResult = .ok ()) :
    (∀ e, env.decodeResult = .error e →
      from_encoded env item encoded =
        ({ item with
            bytes_raw := some encoded
            audio_raw := none
            extension := .Bin
            loop_points_samples := none }, .ok ())) ∧
    (∀ raw m, env.decodeResult = .ok raw → env.wavRead raw = .readFailed m →
      (from_encoded env item encoded).2 =
        .error ("Error reading returned wav\n" ++ m)) := by
  obtain ⟨x, hx⟩ : ∃ x, extension_of_encoded encoded = .ok x := by
    unfold extension_of_encoded
    rw [if_neg (by omega)]
    split_ifs <;> exact ⟨_, rfl⟩
  constructor
  · intro e he
    simp [from_encoded, hx, hdir, hwrite, he]
  · intro raw m hr hw
    simp [from_encoded, hx, hdir, hwrite, hr, hw]

/-- Claim C2 witness: the spec's own scenario, an "IDSP"-magic buffer with
padding imported while the decode step fails (non-functional tool), ends
in the Bin state with the original bytes retained and result Ok. -/
theorem C2_witness :
    from_encoded
      { createDirResult := .ok ()
        writeResult := .ok ()
        decodeResult := .error "VGAudiCli path is empty"
        loopPoints := none
        wavRead := fun _ => .readFailed "x" }
      (ListItem.new "snd") [73, 68, 83, 80, 1, 2] =
      ({ ListItem.new "snd" with
          bytes_raw := some [73, 68, 83, 80, 1, 2]
          audio_raw := none
          extension := .Bin
          loop_points_samples := none }, .ok ()) :=
  (C2_from_encoded_fallback _ _ _ (by decide) rfl rfl).1
    "VGAudiCli path is empty" rfl

/-- Containment of one string in another, used to state what the tool error
messages include. -/
def containsText (msg sub : String) : Prop :=
  List.IsInfix sub.data msg.data

/-- The non-zero-exit error message contains the exit code, each stream
that decoded as text, and the fixed note for each stream that did not. -/
lemma toolErrorMessage_contains (tool : String) (c : Int)
    (so se : Except String String) :
    containsText (toolErrorMessage tool c so se) (toString c) ∧
    (∀ s, so = .ok s → containsText (toolErrorMessage tool c so se) s) ∧
    (∀ e, so = .error e →
      containsText (toolErrorMessage tool c so se) "stdout couldn't be read\n") ∧
    (∀ s, se = .ok s → containsText (toolErrorMessage tool c so se) s) ∧
    (∀ e, se = .error e →
      containsText (toolErrorMessage tool c so se) "stderr couldn't be read") := by
  refine ⟨?_, ?_, ?_, ?_, ?_⟩
  · exact ⟨("Attempted running " ++ tool ++ ", found exit code ").data,
      ("\n" ++ stdoutReport so ++ stderrReport se).data,
      by simp [toolErrorMessage, String.data_append]⟩
  · rintro s rfl
    by_cases hs : s = ""
    · exact ⟨[], (toolErrorMessage tool c (.ok s) se).data, by simp [hs]⟩
    · refine ⟨("Attempted running " ++ tool ++ ", found exit code " ++ toString c
        ++ "\n" ++ "stdout is:\n").data, ("\n" ++ stderrReport se).data, ?_⟩
      simp [toolErrorMessage, stdoutReport, hs, String.data_append]
  · rintro e rfl
    refine ⟨("Attempted running " ++ tool ++ ", found exit code " ++ toString c
      ++ "\n").data, (stderrReport se).data, ?_⟩
    simp [toolErrorMessage, stdoutReport, String.data_append]
  · rintro s rfl
    by_cases hs : s = ""
    · exact ⟨[], (toolErrorMessage tool c so (.ok s)).data, by simp [hs]⟩
    · refine ⟨("Attempted running " ++ tool ++ ", found exit code " ++ toString c
        ++ "\n" ++ stdoutReport so ++ "stderr is:\n").data, [], ?_⟩
      simp [toolErrorMessage, stderrReport, hs, String.data_append]
  · rintro e rfl
    refine ⟨("Attempted running " ++ tool ++ ", found exit code " ++ toString c
      ++ "\n" ++ stdoutReport so).data, [], ?_⟩
    simp [toolErrorMessage, stderrReport, String.data_append]

/-- Claim C3 counterexample: a vgmstream_decode invocation whose process
ends without an exit code (killed/terminated) returns success with the
captured stdout, not an error. -/
theorem C3_counterexample :
    vgmstream_decode
      { vgmstream_path := "vgmstream"
        spawn := .ok
          { exitCode := none
            stdoutBytes := [7, 7]
            stdoutUtf8 := .ok ""
            stderrUtf8 := .ok "" } }
      = .ok [7, 7] := rfl

/-- Claim C3 (amended): for both tool invocations a non-zero exit code
yields an error whose message includes the exit code and each captured
stream (or the fixed note when a stream was not valid text); the absence
of an exit code yields a distinct error in vgaudio_cli_decode, but
vgmstream_decode treats it as success and returns the captured stdout. -/
theorem C3_tool_exit_codes (va : VgaudioEnv) (vs : VgmstreamEnv)
    (outA outB : ProcessOutput) :
    (va.vgaudio_cli_path ≠ "" → va.spawn = .ok outA →
      (∀ c, outA.exitCode = some c → c ≠ 0 →
        vgaudio_cli_decode va =
          .error (toolErrorMessage "VGAudioCli" c outA.stdoutUtf8 outA.stderrUtf8)) ∧
      (outA.exitCode = none →
        vgaudio_cli_decode va =
          .error "Attempted running VGAudioCli, didn't get any exit code")) ∧
    (vs.vgmstream_path ≠ "" → vs.spawn = .ok outB →
      (∀ c, outB.exitCode = some c → c ≠ 0 →
        vgmstream_decode vs =
          .error (toolErrorMessage "vgmstream" c outB.stdoutUtf8 outB.stderrUtf8)) ∧
      (outB.exitCode = none → vgmstream_decode vs = .ok outB.stdoutBytes)) ∧
    (∀ tool c so se,
      containsText (toolErrorMessage tool c so se) (toString c) ∧
      (∀ s, so = .ok s → containsText (toolErrorMessage tool c so se) s) ∧
      (∀ e, so = .error e →
        containsText (toolErrorMessage tool c so se) "stdout couldn't be read\n") ∧
      (∀ s, se = .ok s → containsText (toolErrorMessage tool c so se) s) ∧
      (∀ e, se = .error e →
        containsText (toolErrorMessage tool c so se) "stderr couldn't be read")) := by
  refine ⟨fun hp hs => ⟨fun c hc hc0 => ?_, fun hc => ?_⟩,
    fun hp hs => ⟨fun c hc hc0 => ?_, fun hc => ?_⟩,
    fun tool c so se => toolErrorMessage_contains tool c so se⟩
  · simp [vgaudio_cli_decode, hp, hs, hc, hc0]
  · simp [vgaudio_cli_decode, hp, hs, hc]
  · simp [vgmstream_decode, hp, hs, hc, hc0]
  · simp [vgmstream_decode, hp, hs, hc]

/-- Claim C8: loop_points_of returns some (start, end) exactly when the
metadata query succeeds, its JSON value has a loopingInfo object whose
start and end members parse as unsigned integers, and end exceeds start;
otherwise it returns none. -/
theorem C8_loop_points_of (env : VgmstreamMetaEnv) (a b : Nat) :
    loop_points_of env = some (a, b) ↔
      ∃ j fields, vgmstream_metadata env = .ok j ∧
        jsonMember j "loopingInfo" = .obj fields ∧
        as_usize (jsonMember (.obj fields) "start") = some a ∧
        as_usize (jsonMember (.obj fields) "end") = some b ∧
        a < b := by
  constructor
  · intro h
    unfold loop_points_of at h
    cases hm : vgmstream_metadata env with
    | error e => simp only [hm] at h; simp at h
    | ok j =>
      simp only [hm] at h
      cases hl : jsonMember j "loopingInfo" with
      | obj fields =>
        simp only [hl] at h
        cases hs1 : as_usize (jsonMember (.obj fields) "start") with
        | none =>
          cases he1 : as_usize (jsonMember (.obj fields) "end") <;>
            (simp only [hs1, he1] at h; simp at h)
        | some a1 =>
          cases he1 : as_usize (jsonMember (.obj fields) "end") with
          | none => simp only [hs1, he1] at h; simp at h
          | some b1 =>
            simp only [hs1, he1] at h
            by_cases hgt : b1 > a1
            · rw [if_pos hgt] at h
              obtain ⟨rfl, rfl⟩ : a1 = a ∧ b1 = b := by simpa using h
              exact ⟨j, fields, rfl, hl, hs1, he1, hgt⟩
            · rw [if_neg hgt] at h; simp at h
      | null => simp only [hl] at h; simp at h
      | bool x => simp only [hl] at h; simp at h
      | str x => simp only [hl] at h; simp at h
      | num x => simp only [hl] at h; simp at h
      | arr x => simp only [hl] at h; simp at h
  · rintro ⟨j, fields, hm, hl, hs1, he1, hgt⟩
    unfold loop_points_of
    rw [hm]
    simp only [hl, hs1, he1]
    rw [if_pos hgt]

/-- Looking up under a replaced name finds the new node, provided the name
was present. -/
lemma lookupEntry_setEntry_self (es : List (String × FsNode)) (n : String)
    (v w : FsNode) (h : lookupEntry es n = some w) :
    lookupEntry (setEntry es n v) n = some v := by
  induction es with
  | nil => simp [lookupEntry] at h
  | cons e rest ih =>
    by_cases he : e.1 = n
    · simp [lookupEntry, setEntry, he]
    · simp only [lookupEntry, setEntry, if_neg he] at h ⊢
      exact ih h

/-- Replacing one name leaves lookups of every other name unchanged. -/
lemma lookupEntry_setEntry_ne (es : List (String × FsNode)) (n m : String)
    (v : FsNode) (hnm : m ≠ n) :
    lookupEntry (setEntry es n v) m = lookupEntry es m := by
  induction es with
  | nil => simp [setEntry]
  | cons e rest ih =>
    have hnm2 : ¬ n = m := fun hh => hnm hh.symm
    by_cases he : e.1 = n
    · simp [lookupEntry, setEntry, he, hnm2]
    · simp only [setEntry, if_neg he, lookupEntry]
      by_cases hm : e.1 = m
      · simp [hm]
      · simp [hm, ih]

/-- Removing a name removes every lookup hit for it. -/
lemma lookupEntry_removeEntry_self (es : List (String × FsNode)) (n : String) :
    lookupEntry (removeEntry es n) n = none := by
  induction es with
  | nil => simp [removeEntry, lookupEntry]
  | cons e rest ih =>
    by_cases he : e.1 = n
    · simp [removeEntry, he, ih]
    · simp [removeEntry, he, lookupEntry, ih]

/-- Removing one name leaves lookups of every other name unchanged. -/
lemma lookupEntry_removeEntry_ne (es : List (String × FsNode)) (n m : String)
    (hnm : m ≠ n) :
    lookupEntry (removeEntry es n) m = lookupEntry es m := by
  induction es with
  | nil => rfl
  | cons e rest ih =>
    have hnm2 : ¬ n = m := fun hh => hnm hh.symm
    by_cases he : e.1 = n
    · simp [removeEntry, he, ih, lookupEntry, hnm2]
    · simp only [removeEntry, if_neg he, lookupEntry]
      by_cases hm : e.1 = m
      · simp [hm]
      · simp [hm, ih]

/-- Lookup over an appended list falls through to the right part exactly
when the left part misses. -/
lemma lookupEntry_append (l1 l2 : List (String × FsNode)) (n : String) :
    lookupEntry (l1 ++ l2) n =
      match lookupEntry l1 n with
      | some v => some v
      | none => lookupEntry l2 n := by
  induction l1 with
  | nil => simp [lookupEntry]
  | cons e rest ih =>
    by_cases he : e.1 = n
    · simp [lookupEntry, he]
    · simp [lookupEntry, he, ih]

/-- Replacing a name by the node it already holds is the identity. -/
lemma setEntry_eq_self (es : List (String × FsNode)) (n : String) (v : FsNode)
    (h : lookupEntry es n = some v) : setEntry es n v = es := by
  induction es with
  | nil => rfl
  | cons e rest ih =>
    by_cases he : e.1 = n
    · simp only [lookupEntry, if_pos he] at h
      simp only [setEntry, if_pos he]
      obtain ⟨e1, e2⟩ := e
      simp only at he
      obtain rfl := he
      obtain rfl := Option.some.injEq _ _ ▸ h
      simp
    · simp only [lookupEntry, if_neg he] at h
      simp [setEntry, if_neg he, ih h]

/-- Claim C5: create_target_dir is idempotent and confined: the target name
ends as an empty directory, every other entry of the cache root is left
exactly as it was, and running it a second time changes nothing. -/
theorem C5_create_target_dir (root : List (String × FsNode))
    (name other : String) :
    lookupEntry (create_target_dir root name) name = some (.dir []) ∧
    (other ≠ name →
      lookupEntry (create_target_dir root name) other = lookupEntry root other) ∧
    create_target_dir (create_target_dir root name) name =
      create_target_dir root name := by
  have hmain : lookupEntry (create_target_dir root name) name = some (.dir []) := by
    unfold create_target_dir
    cases h : lookupEntry root name with
    | none =>
      rw [lookupEntry_append, h]
      simp [lookupEntry]
    | some v =>
      cases v with
      | file =>
        rw [lookupEntry_append, lookupEntry_removeEntry_self]
        simp [lookupEntry]
      | dir d => exact lookupEntry_setEntry_self root name _ _ h
  refine ⟨hmain, fun hne => ?_, ?_⟩
  · have hno : ¬ name = other := fun hh => hne hh.symm
    unfold create_target_dir
    cases h : lookupEntry root name with
    | none =>
      rw [lookupEntry_append]
      cases ho : lookupEntry root other with
      | some v => simp
      | none => simp [lookupEntry, hno]
    | some v =>
      cases v with
      | file =>
        rw [lookupEntry_append, lookupEntry_removeEntry_ne root name other hne]
        cases ho : lookupEntry root other with
        | some v => simp
        | none => simp [lookupEntry, hno]
      | dir d => exact lookupEntry_setEntry_ne root name other _ hne
  · conv_lhs => rw [create_target_dir, hmain]
    exact setEntry_eq_self _ name _ hmain

/-- The save loop produces exactly one record per item. -/
lemma saveRecords_length (envs : Nat → EncodeEnv) (i : Nat)
    (items : List ListItem) :
    (saveRecords envs i items).length = items.length := by
  induction items generalizing i with
  | nil => rfl
  | cons item rest ih => simp [saveRecords, ih]

/-- The record at position k of the save loop started at index i comes from
the item at position k, with id (i + k) mod 2^32 and the oracle at i + k. -/
lemma saveRecords_getElem? (envs : Nat → EncodeEnv) (i k : Nat)
    (items : List ListItem) :
    (saveRecords envs i items)[k]? =
      (items[k]?).map (fun item =>
        { id := (i + k) % 2 ^ 32
          name := item.name
          data :=
            match (get_nus3_encoded_raw (envs (i + k)) item).2 with
            | .ok bytes => bytes
            | .error _ => [] }) := by
  induction items generalizing i k with
  | nil => simp [saveRecords]
  | cons item rest ih =>
    cases k with
    | zero => simp [saveRecords]
    | succ k =>
      simp only [saveRecords, List.getElem?_cons_succ, ih (i + 1) k]
      have : i + 1 + k = i + (k + 1) := by omega
      rw [this]

/-- Claim C9: save_nus3audio assembles one record per item in list order;
the record at index k carries id k (as u32, so k mod 2^32), the item's
name, the encoded bytes when get_nus3_encoded_raw succeeds, and a silently
empty payload when it fails, so no per-item encoding error fails the save. -/
theorem C9_save_nus3audio (envs : Nat → EncodeEnv) (items : List ListItem)
    (k : Nat) :
    (save_nus3audio_files envs items).length = items.length ∧
    (∀ item, items[k]? = some item →
      ∃ rec, (save_nus3audio_files envs items)[k]? = some rec ∧
        rec.id = k % 2 ^ 32 ∧
        rec.name = item.name ∧
        (∀ msg, (get_nus3_encoded_raw (envs k) item).2 = .error msg →
          rec.data = []) ∧
        (∀ bytes, (get_nus3_encoded_raw (envs k) item).2 = .ok bytes →
          rec.data = bytes)) := by
  constructor
  · exact saveRecords_length envs 0 items
  · intro item hitem
    have heq := saveRecords_getElem? envs 0 k items
    rw [hitem] at heq
    simp only [Option.map_some, Nat.zero_add] at heq
    refine ⟨_, heq, rfl, rfl, fun msg hmsg => ?_, fun bytes hbytes => ?_⟩
    · simp [hmsg]
    · simp [hbytes]
